import Mathlib

/-!
Shallow embedding of the real-time voice bridging core of the
`sears-home-task` repository (FastAPI + Twilio + OpenAI realtime service).

Python source files embedded here:
  * `app/schemas/conversation.py`  — conversation state data model
  * `app/voice/session_manager.py` — live session store
  * `app/api/voice.py`             — carrier signaling webhook handler
  * `app/voice/agent.py`           — tool dispatcher (`VoiceAgent`)
  * `app/voice/realtime_handler.py`— downlink pump and tool-call round trip
  * `app/services/diagnostic_service.py` — appliance lexicon and KB
  * `app/services/scheduling_service.py` — slot search and booking
  * `app/services/customer_service.py`   — customer record updates
  * `app/services/image_service.py`      — upload-link issuance

Conventions: wall-clock reads (`datetime.utcnow()`, `date.today()`) are
modelled as explicit `Nat` parameters (seconds / days); random draws
(`secrets.choice`, `secrets.token_urlsafe`) are oracle `String` parameters;
the relational database is an explicit record of tables threaded through
the service functions, with commits modelled as returning the updated
record.  JSON values decoded from the model's tool-call arguments are
modelled by `JsonVal` (the five declared tool schemas only use strings and
integers).
-/

/-- Model of Python `str.lower()` (ASCII-relevant part used by the lexicon). -/
def pyLower (s : String) : String :=
  String.mk (s.toList.map Char.toLower)

/-- Model of Python `str.strip()` with no argument: drop whitespace at both ends. -/
def pyStrip (s : String) : String :=
  String.mk (((s.toList.dropWhile Char.isWhitespace).reverse.dropWhile Char.isWhitespace).reverse)

/-- Model of Python slicing `s[:n]` on a `str` (code-point prefix). -/
def pyTake (s : String) (n : Nat) : String :=
  String.mk (s.toList.take n)

/-- Model of Python `str.lstrip("0")`: drop every leading `0` character. -/
def pyDropLeadingZeros (s : String) : String :=
  String.mk (s.toList.dropWhile (fun c => c == '0'))

/-- Model of Python `s.split(None, 1)`: strip leading whitespace, split off the
first whitespace-free token, then strip the separator run; the remainder is
kept only when non-empty. -/
def pySplitOnce (s : String) : List String :=
  let t := s.toList.dropWhile Char.isWhitespace
  let first := t.takeWhile (fun c => !c.isWhitespace)
  let rest := (t.dropWhile (fun c => !c.isWhitespace)).dropWhile Char.isWhitespace
  if first.isEmpty then []
  else if rest.isEmpty then [String.mk first]
  else [String.mk first, String.mk rest]

/-- Left-pad a numeral to two digits (models `%02d`-style fields of `strftime`). -/
def pad2 (n : Nat) : String :=
  if n < 10 then "0" ++ toString n else toString n

/-- A JSON scalar appearing in decoded tool-call arguments.  The five tool
schemas declare only `string` and `integer` parameters. -/
inductive JsonVal where
  | str (s : String)
  | num (n : Int)
deriving DecidableEq, BEq

/-- Rendering of a JSON scalar into text, as Python f-string interpolation
or TEXT-column coercion would produce. -/
def JsonVal.render : JsonVal → String
  | .str s => s
  | .num n => toString n

/-- Extraction of a string argument.  Where the Python code applies `str`
methods (`.lower()`, `.split()`) to the value, a non-string raises and is
caught by `execute_tool`'s handler; `none` models that path. -/
def JsonVal.getStr : JsonVal → Option String
  | .str s => some s
  | .num _ => none

/-- Decoded argument map of a tool call (`Dict[str, Any]` in the source). -/
abbrev ArgMap := List (String × JsonVal)

/-- Model of Python `arguments["k"]` / `arguments.get("k")`. -/
def ArgMap.find (args : ArgMap) (k : String) : Option JsonVal :=
  (args.find? (fun p => p.1 == k)).map Prod.snd

/-! ## Conversation state (`app/schemas/conversation.py`) -/

/-- Phases of the diagnostic conversation (`ConversationPhase`). -/
inductive ConversationPhase where
  | greeting
  | identify_appliance
  | gather_symptoms
  | diagnostic
  | troubleshooting
  | scheduling
  | confirmation
  | image_capture
  | closing
deriving DecidableEq

/-- Information gathered during diagnosis (`DiagnosticInfo`). -/
structure DiagnosticInfo where
  appliance_type : Option String := none
  appliance_brand : Option String := none
  appliance_model : Option String := none
  appliance_age_years : Option Nat := none
  primary_symptom : Option String := none
  additional_symptoms : List String := []
  error_codes : List String := []
  unusual_sounds : Option String := none
  when_started : Option String := none
  troubleshooting_steps_tried : List String := []
  troubleshooting_results : List (String × String) := []
  issue_resolved : Bool := false
  resolution_notes : Option String := none
deriving DecidableEq

/-- Information for scheduling a technician visit (`SchedulingInfo`). -/
structure SchedulingInfo where
  customer_zip_code : Option String := none
  preferred_dates : List String := []
  preferred_time_of_day : Option String := none
  selected_technician_id : Option Nat := none
  selected_time_slot_id : Option Nat := none
  customer_name : Option String := none
  customer_phone : Option String := none
  customer_email : Option String := none
  customer_address : Option String := none
deriving DecidableEq

/-- Complete state of a voice conversation (`ConversationState`).
Timestamps are `Nat` ticks. -/
structure ConversationState where
  call_sid : String
  customer_phone : String
  started_at : Nat
  last_interaction : Nat
  phase : ConversationPhase := ConversationPhase.greeting
  turn_count : Nat := 0
  diagnostic : DiagnosticInfo := {}
  scheduling : SchedulingInfo := {}
  customer_id : Option Nat := none
  conversation_summary : String := ""
  key_facts : List String := []
  image_upload_requested : Bool := false
  image_upload_token : Option String := none
  image_analysis_result : Option String := none
  appointment_id : Option Nat := none
  appointment_confirmation : Option String := none
deriving DecidableEq

/-- `ConversationState.update_interaction`: stamp `last_interaction` with the
current clock reading and bump `turn_count`. -/
def ConversationState.update_interaction (s : ConversationState) (now : Nat) : ConversationState :=
  { s with last_interaction := now, turn_count := s.turn_count + 1 }

/-- `ConversationState.add_fact`: append the fact unless already present. -/
def ConversationState.add_fact (s : ConversationState) (fact : String) : ConversationState :=
  if fact ∈ s.key_facts then s
  else { s with key_facts := s.key_facts ++ [fact] }

/-! ## Session store (`app/voice/session_manager.py`)

The Python store is a `Dict[str, ConversationState]`; it is modelled as an
association list with distinct keys.  `removeKey` removes every binding of a
key, which agrees with `dict.pop` on the distinct-key representations the
operations produce. -/

/-- Remove every binding of `k` (models `dict.pop` / overwrite-insert). -/
def removeKey (k : String) : List (String × ConversationState) → List (String × ConversationState)
  | [] => []
  | (k', v) :: rest =>
      if k' = k then removeKey k rest else (k', v) :: removeKey k rest

/-- Model of `dict.get`. -/
def lookupKey (k : String) : List (String × ConversationState) → Option ConversationState
  | [] => none
  | (k', v) :: rest => if k' = k then some v else lookupKey k rest

/-- The in-memory session store (`SessionManager`). -/
structure SessionManager where
  sessions : List (String × ConversationState) := []
deriving DecidableEq

/-- `SessionManager.create_session`: build a fresh state (phase `greeting`,
`turn_count = 0`, both timestamps `now`) and store it under `call_sid`.
The source performs no duplicate check: `self._sessions[call_sid] = session`
overwrites any live entry. -/
def SessionManager.create_session (m : SessionManager) (now : Nat)
    (call_sid customer_phone : String) (customer_id : Option Nat) :
    SessionManager × ConversationState :=
  let session : ConversationState :=
    { call_sid := call_sid
      customer_phone := customer_phone
      customer_id := customer_id
      started_at := now
      last_interaction := now
      phase := ConversationPhase.greeting }
  ({ sessions := (call_sid, session) :: removeKey call_sid m.sessions }, session)

/-- `SessionManager.get_session`. -/
def SessionManager.get_session (m : SessionManager) (call_sid : String) :
    Option ConversationState :=
  lookupKey call_sid m.sessions

/-- `SessionManager.update_session`: `update_interaction` then store. -/
def SessionManager.update_session (m : SessionManager) (now : Nat)
    (session : ConversationState) : SessionManager × ConversationState :=
  let session := session.update_interaction now
  ({ sessions := (session.call_sid, session) :: removeKey session.call_sid m.sessions }, session)

/-- `SessionManager.end_session`: `self._sessions.pop(call_sid, None)` —
remove and return the prior state when present. -/
def SessionManager.end_session (m : SessionManager) (call_sid : String) :
    SessionManager × Option ConversationState :=
  ({ sessions := removeKey call_sid m.sessions }, lookupKey call_sid m.sessions)

/-- `SessionManager.transition_phase`: set the phase, then `update_session`. -/
def SessionManager.transition_phase (m : SessionManager) (now : Nat)
    (call_sid : String) (new_phase : ConversationPhase) :
    SessionManager × Option ConversationState :=
  match m.get_session call_sid with
  | none => (m, none)
  | some session =>
      let session := { session with phase := new_phase }
      let (m', session') := m.update_session now session
      (m', some session')

/-- Modelled from the spec: the Session Store `create` operation as §4.1 and
§7 describe it — "Fails with `DuplicateSession` if a live state already
exists for `call_id`", otherwise initializes phase=greeting, timestamps=now,
turn_count=0.  The source (`SessionManager.create_session`) has no such
failure outcome; this definition exists only to be compared with it. -/
inductive CreateResult where
  | ok (m : SessionManager) (s : ConversationState)
  | duplicateSession
deriving DecidableEq

/-- Modelled from the spec: spec-side `create` (see `CreateResult`). -/
def create_session_spec (m : SessionManager) (now : Nat)
    (call_sid customer_phone : String) (customer_id : Option Nat) : CreateResult :=
  if (lookupKey call_sid m.sessions).isSome then CreateResult.duplicateSession
  else
    let session : ConversationState :=
      { call_sid := call_sid
        customer_phone := customer_phone
        customer_id := customer_id
        started_at := now
        last_interaction := now
        phase := ConversationPhase.greeting }
    CreateResult.ok { sessions := (call_sid, session) :: m.sessions } session

/-! ## Relational model (`app/models/*.py`)

The persistence layer is modelled as an explicit record of tables.  The
`technician_service_areas` and `specialties` association tables are folded
into the technician row as lists of zip codes and appliance tags, which is
the relational content the queries consult. -/

/-- A service technician row (`Technician`, with its service areas and
specialties joined in). -/
structure Technician where
  id : Nat
  full_name : String
  is_active : Bool := true
  service_zips : List String := []
  specialties : List String := []
deriving DecidableEq

/-- A bookable time slot row (`TimeSlot`).  `date` is days since epoch,
`start_minutes` / `end_minutes` are minutes since midnight. -/
structure TimeSlot where
  id : Nat
  technician_id : Nat
  date : Nat
  start_minutes : Nat
  end_minutes : Nat
  is_available : Bool := true
  is_blocked : Bool := false
deriving DecidableEq

/-- A customer row (`Customer`), with the updatable columns of
`CustomerService.update_customer`. -/
structure CustomerRec where
  id : Nat
  phone : String
  first_name : Option String := none
  last_name : Option String := none
  email : Option String := none
  address_line1 : Option String := none
  address_line2 : Option String := none
  city : Option String := none
  state : Option String := none
  zip_code : Option String := none
  preferred_contact_method : Option String := none
deriving DecidableEq

/-- Appointment status tags (`AppointmentStatus`). -/
inductive AppointmentStatus where
  | scheduled
  | confirmed
  | in_progress
  | completed
  | cancelled
deriving DecidableEq

/-- An appointment row (`Appointment`). -/
structure Appointment where
  id : Nat
  technician_id : Nat
  customer_id : Option Nat
  time_slot_id : Nat
  confirmation_number : String
  status : AppointmentStatus
  appliance_type : String
  issue_description : String
  symptoms : Option String := none
  customer_notes : Option String := none
  call_sid : Option String := none
deriving DecidableEq

/-- An image upload request row (`ImageUploadRequest`). -/
structure ImageUploadRequest where
  customer_id : Option Nat
  upload_token : String
  email_sent_to : String
  email_sent_at : Nat
  expires_at : Nat
  appliance_type : Option String := none
  issue_description : Option String := none
  call_sid : Option String := none
deriving DecidableEq

/-- The database state threaded through the service calls. -/
structure DB where
  customers : List CustomerRec := []
  technicians : List Technician := []
  slots : List TimeSlot := []
  appointments : List Appointment := []
  upload_requests : List ImageUploadRequest := []
  next_customer_id : Nat := 1
  next_appointment_id : Nat := 1
deriving DecidableEq

/-! ## Customer service (`app/services/customer_service.py`) -/

/-- The field updates `CustomerService.update_customer` accepts as kwargs;
`none` models an absent or `None`-valued kwarg, which is skipped. -/
structure CustomerUpdate where
  email : Option String := none
  first_name : Option String := none
  last_name : Option String := none
  address_line1 : Option String := none
  address_line2 : Option String := none
  city : Option String := none
  state : Option String := none
  zip_code : Option String := none
  preferred_contact_method : Option String := none
deriving DecidableEq

/-- Apply an optional field update (`setattr` guarded by `value is not None`). -/
def applyField (new old : Option String) : Option String :=
  match new with
  | some v => some v
  | none => old

/-- `CustomerService.update_customer`: set each provided non-`None` allowed
field and commit.  A missing customer id is a no-op returning `none`. -/
def CustomerService.update_customer (db : DB) (customer_id : Nat)
    (u : CustomerUpdate) : DB × Option CustomerRec :=
  match db.customers.find? (fun c => c.id == customer_id) with
  | none => (db, none)
  | some c =>
      let c' : CustomerRec :=
        { c with
          email := applyField u.email c.email
          first_name := applyField u.first_name c.first_name
          last_name := applyField u.last_name c.last_name
          address_line1 := applyField u.address_line1 c.address_line1
          address_line2 := applyField u.address_line2 c.address_line2
          city := applyField u.city c.city
          state := applyField u.state c.state
          zip_code := applyField u.zip_code c.zip_code
          preferred_contact_method := applyField u.preferred_contact_method c.preferred_contact_method }
      ({ db with customers := db.customers.map (fun x => if x.id == customer_id then c' else x) },
       some c')

/-- `CustomerService.get_or_create_customer`: look up by phone; insert a
fresh row when absent. -/
def CustomerService.get_or_create_customer (db : DB) (phone : String) :
    DB × CustomerRec :=
  match db.customers.find? (fun c => c.phone == phone) with
  | some c => (db, c)
  | none =>
      let c : CustomerRec := { id := db.next_customer_id, phone := phone }
      ({ db with customers := db.customers ++ [c],
                 next_customer_id := db.next_customer_id + 1 }, c)

/-! ## Diagnostic service (`app/services/diagnostic_service.py`) -/

/-- Appliance type constants (`ApplianceType` in `app/models/technician.py`). -/
def ApplianceType.WASHER : String := "washer"

/-- Appliance type constant `DRYER`. -/
def ApplianceType.DRYER : String := "dryer"

/-- Appliance type constant `REFRIGERATOR`. -/
def ApplianceType.REFRIGERATOR : String := "refrigerator"

/-- Appliance type constant `DISHWASHER`. -/
def ApplianceType.DISHWASHER : String := "dishwasher"

/-- Appliance type constant `OVEN`. -/
def ApplianceType.OVEN : String := "oven"

/-- Appliance type constant `MICROWAVE`. -/
def ApplianceType.MICROWAVE : String := "microwave"

/-- Appliance type constant `HVAC`. -/
def ApplianceType.HVAC : String := "hvac"

/-- Appliance type constant `GARBAGE_DISPOSAL`. -/
def ApplianceType.GARBAGE_DISPOSAL : String := "garbage_disposal"

/-- Appliance type constant `WATER_HEATER`. -/
def ApplianceType.WATER_HEATER : String := "water_heater"

/-- Appliance type constant `FREEZER`. -/
def ApplianceType.FREEZER : String := "freezer"

/-- The synonym lexicon of `DiagnosticService.normalize_appliance_type`
(the `mappings` dict), in source order. -/
def applianceMappings : List (String × String) :=
  [ ("washer", ApplianceType.WASHER)
  , ("washing machine", ApplianceType.WASHER)
  , ("clothes washer", ApplianceType.WASHER)
  , ("laundry machine", ApplianceType.WASHER)
  , ("dryer", ApplianceType.DRYER)
  , ("clothes dryer", ApplianceType.DRYER)
  , ("tumble dryer", ApplianceType.DRYER)
  , ("refrigerator", ApplianceType.REFRIGERATOR)
  , ("fridge", ApplianceType.REFRIGERATOR)
  , ("refridgerator", ApplianceType.REFRIGERATOR)
  , ("dishwasher", ApplianceType.DISHWASHER)
  , ("dish washer", ApplianceType.DISHWASHER)
  , ("oven", ApplianceType.OVEN)
  , ("stove", ApplianceType.OVEN)
  , ("range", ApplianceType.OVEN)
  , ("cooktop", ApplianceType.OVEN)
  , ("microwave", ApplianceType.MICROWAVE)
  , ("micro wave", ApplianceType.MICROWAVE)
  , ("hvac", ApplianceType.HVAC)
  , ("ac", ApplianceType.HVAC)
  , ("air conditioner", ApplianceType.HVAC)
  , ("air conditioning", ApplianceType.HVAC)
  , ("heat pump", ApplianceType.HVAC)
  , ("furnace", ApplianceType.HVAC)
  , ("heating", ApplianceType.HVAC)
  , ("central air", ApplianceType.HVAC)
  , ("garbage disposal", ApplianceType.GARBAGE_DISPOSAL)
  , ("disposal", ApplianceType.GARBAGE_DISPOSAL)
  , ("water heater", ApplianceType.WATER_HEATER)
  , ("hot water heater", ApplianceType.WATER_HEATER)
  , ("freezer", ApplianceType.FREEZER)
  ]

/-- `DiagnosticService.normalize_appliance_type`: lower-case and strip the
input, then look it up in the lexicon. -/
def normalize_appliance_type (user_input : String) : Option String :=
  let key := pyStrip (pyLower user_input)
  (applianceMappings.find? (fun p => p.1 == key)).map Prod.snd

/-- Per-appliance knowledge entry of `DIAGNOSTIC_KNOWLEDGE` (only the parts
the embedded operations read). -/
structure ApplianceKnowledge where
  common_symptoms : List String := []
  diagnostic_questions : List String := []
  troubleshooting : List (String × List String) := []
deriving DecidableEq

/-- The washer entry of `DIAGNOSTIC_KNOWLEDGE` (troubleshooting part). -/
def washerKnowledge : ApplianceKnowledge :=
  { common_symptoms :=
      [ "won\x27t start", "won\x27t spin", "not draining", "leaking water"
      , "making loud noise", "shaking or vibrating", "door won\x27t open"
      , "not filling with water", "clothes still wet after cycle"
      , "error code displayed" ]
    troubleshooting :=
      [ ("won\x27t start",
          [ "Check that the washer is plugged in and the outlet has power"
          , "Ensure the door or lid is completely closed and latched"
          , "Check if the water supply valves are open"
          , "Try resetting by unplugging for 1 minute, then plugging back in"
          , "Check if the child lock feature is enabled" ])
      , ("not draining",
          [ "Check the drain hose for kinks or clogs"
          , "Clean the drain pump filter (usually at the front bottom)"
          , "Ensure the drain hose height is correct (not too high)"
          , "Check for small items that may have blocked the pump" ])
      , ("leaking water",
          [ "Check door seal for damage or debris"
          , "Inspect inlet hoses for cracks or loose connections"
          , "Don\x27t overload the washer"
          , "Use the correct amount of HE detergent if required"
          , "Check the drain hose connection" ])
      , ("making loud noise",
          [ "Check if the washer is level using a spirit level"
          , "Ensure shipping bolts have been removed (new washers)"
          , "Check for foreign objects in the drum"
          , "Avoid overloading the washer"
          , "Check if anything is caught between the drum and tub" ]) ] }

/-- The dryer entry of `DIAGNOSTIC_KNOWLEDGE` (troubleshooting part). -/
def dryerKnowledge : ApplianceKnowledge :=
  { common_symptoms :=
      [ "won\x27t start", "not heating", "takes too long to dry"
      , "making loud noise", "drum not spinning", "shuts off too soon"
      , "burning smell", "clothes too hot" ]
    troubleshooting :=
      [ ("not heating",
          [ "Check that the dryer is properly plugged in (electric needs 240V)"
          , "For gas dryers, ensure the gas supply valve is open"
          , "Clean the lint trap thoroughly"
          , "Check and clean the dryer vent duct"
          , "Make sure the vent isn\x27t kinked or blocked" ])
      , ("takes too long to dry",
          [ "Clean the lint trap before every load"
          , "Check the vent system for blockages"
          , "Don\x27t overload the dryer"
          , "Make sure clothes are properly spun in the washer first"
          , "Check that the vent flap outside opens when dryer is running" ])
      , ("making loud noise",
          [ "Check for coins or objects in the drum"
          , "Ensure the dryer is level"
          , "Check if the drum rollers need replacement"
          , "Listen for where the noise is coming from" ]) ] }

/-- The refrigerator entry of `DIAGNOSTIC_KNOWLEDGE` (troubleshooting part). -/
def refrigeratorKnowledge : ApplianceKnowledge :=
  { common_symptoms :=
      [ "not cooling", "too cold", "making loud noise", "leaking water"
      , "ice maker not working", "frost buildup", "water dispenser not working"
      , "running constantly", "not running at all" ]
    troubleshooting :=
      [ ("not cooling",
          [ "Check the temperature settings (should be 37°F fridge, 0°F freezer)"
          , "Ensure vents inside aren\x27t blocked by food items"
          , "Clean the condenser coils (usually at the back or bottom)"
          , "Check that the door seals are clean and sealing properly"
          , "Make sure there\x27s clearance around the unit for airflow" ])
      , ("ice maker not working",
          [ "Check that the ice maker is turned on"
          , "Ensure the water supply line is connected and valve is open"
          , "Check the water filter - replace if older than 6 months"
          , "Make sure the freezer is cold enough (0°F or below)"
          , "Check for ice jams in the mechanism" ])
      , ("leaking water",
          [ "Check if the defrost drain is clogged"
          , "Inspect the water supply line for leaks"
          , "Make sure the fridge is level (slightly higher in front)"
          , "Check the drain pan under the unit" ]) ] }

/-- The dishwasher entry of `DIAGNOSTIC_KNOWLEDGE` (troubleshooting part). -/
def dishwasherKnowledge : ApplianceKnowledge :=
  { common_symptoms :=
      [ "not cleaning dishes", "not draining", "leaking", "won\x27t start"
      , "making noise", "not drying dishes", "door won\x27t latch", "bad odor" ]
    troubleshooting :=
      [ ("not cleaning dishes",
          [ "Run hot water at the sink before starting the dishwasher"
          , "Don\x27t pre-rinse dishes, but scrape off large food particles"
          , "Check that spray arms can spin freely"
          , "Clean the filter at the bottom of the dishwasher"
          , "Use fresh detergent and rinse aid"
          , "Don\x27t overload - water needs to reach all dishes" ])
      , ("not draining",
          [ "Check and clean the filter and drain basket"
          , "Ensure the garbage disposal knockout plug is removed"
          , "Check the drain hose for kinks"
          , "Run the garbage disposal before the dishwasher"
          , "Clean the air gap if you have one" ])
      , ("bad odor",
          [ "Run a cleaning cycle with dishwasher cleaner"
          , "Clean the filter and drain area"
          , "Wipe down the door gasket"
          , "Leave the door slightly open between uses" ]) ] }

/-- The oven entry of `DIAGNOSTIC_KNOWLEDGE` (troubleshooting part). -/
def ovenKnowledge : ApplianceKnowledge :=
  { common_symptoms :=
      [ "not heating", "uneven cooking", "temperature inaccurate"
      , "burners won\x27t ignite", "self-clean not working", "door won\x27t open"
      , "display not working" ]
    troubleshooting :=
      [ ("not heating",
          [ "Check that the oven is properly plugged in"
          , "For gas ovens, ensure the gas supply is on"
          , "Try the broiler to see if it\x27s just the bake element"
          , "Check if the oven light comes on"
          , "Make sure the oven isn\x27t in self-clean mode" ])
      , ("uneven cooking",
          [ "Use an oven thermometer to check actual temperature"
          , "Avoid using dark pans which absorb more heat"
          , "Allow proper air circulation - don\x27t cover racks with foil"
          , "Calibrate the oven temperature if needed"
          , "Rotate dishes halfway through cooking" ])
      , ("burners won\x27t ignite",
          [ "Clean the burner caps and grates"
          , "Make sure burner caps are properly seated"
          , "Clean the igniter with a toothbrush"
          , "Check if other burners work to isolate the issue" ]) ] }

/-- The HVAC entry of `DIAGNOSTIC_KNOWLEDGE` (troubleshooting part). -/
def hvacKnowledge : ApplianceKnowledge :=
  { common_symptoms :=
      [ "not cooling", "not heating", "weak airflow", "strange noises"
      , "bad smell", "constantly running", "short cycling", "high energy bills" ]
    troubleshooting :=
      [ ("not cooling",
          [ "Check and replace the air filter if dirty"
          , "Make sure the thermostat is set to cool and below room temp"
          , "Check that the outdoor unit isn\x27t blocked by debris"
          , "Ensure all vents inside are open and unobstructed"
          , "Check if the outdoor unit fan is running"
          , "Check circuit breakers for both indoor and outdoor units" ])
      , ("weak airflow",
          [ "Replace the air filter"
          , "Check if vents are open and unblocked"
          , "Have ductwork inspected for leaks"
          , "Make sure the blower fan is running" ])
      , ("strange noises",
          [ "Rattling might mean loose panels - check and tighten"
          , "Squealing could indicate belt issues"
          , "Clicking at startup is normal; continuous clicking is not"
          , "Banging might indicate a broken component" ]) ] }

/-- `DIAGNOSTIC_KNOWLEDGE`: the static knowledge base keyed by appliance tag. -/
def DIAGNOSTIC_KNOWLEDGE : List (String × ApplianceKnowledge) :=
  [ (ApplianceType.WASHER, washerKnowledge)
  , (ApplianceType.DRYER, dryerKnowledge)
  , (ApplianceType.REFRIGERATOR, refrigeratorKnowledge)
  , (ApplianceType.DISHWASHER, dishwasherKnowledge)
  , (ApplianceType.OVEN, ovenKnowledge)
  , (ApplianceType.HVAC, hvacKnowledge) ]

/-- `DEFAULT_TROUBLESHOOTING`: fallback steps for unmatched symptoms. -/
def DEFAULT_TROUBLESHOOTING : List String :=
  [ "Ensure the appliance is properly plugged in and receiving power"
  , "Check if the circuit breaker hasn\x27t tripped"
  , "Look for any error codes or warning lights"
  , "Try unplugging the appliance for 1 minute, then plugging it back in"
  , "Review the user manual for troubleshooting guidance" ]

/-- Model of Python `a in b` on strings: substring containment. -/
def pyContains (haystack needle : String) : Bool :=
  (haystack.toList.tails.any (fun t => needle.toList.isPrefixOf t))

/-- `DiagnosticService.get_troubleshooting_steps`: first troubleshooting key
that contains or is contained in the lowered symptom; otherwise the default
list. -/
def get_troubleshooting_steps (appliance_type symptom : String) : List String :=
  let appliance_data :=
    ((DIAGNOSTIC_KNOWLEDGE.find? (fun p => p.1 == appliance_type)).map Prod.snd).getD {}
  let symptom_lower := pyLower symptom
  match appliance_data.troubleshooting.find?
      (fun p => pyContains symptom_lower p.1 || pyContains p.1 symptom_lower) with
  | some p => p.2
  | none => DEFAULT_TROUBLESHOOTING

/-! ## Scheduling service (`app/services/scheduling_service.py`) -/

/-- Civil date from days since 1970-01-01 (proleptic Gregorian); models the
`datetime.date` value stored in a `TimeSlot`.  Returns `(year, month, day)`. -/
def civilFromDays (z : Nat) : Nat × Nat × Nat :=
  let z := z + 719468
  let era := z / 146097
  let doe := z % 146097
  let yoe := (doe - doe / 1460 + doe / 36524 - doe / 146096) / 365
  let y := yoe + era * 400
  let doy := doe - (365 * yoe + yoe / 4 - yoe / 100)
  let mp := (5 * doy + 2) / 153
  let d := doy - (153 * mp + 2) / 5 + 1
  let m := if mp < 10 then mp + 3 else mp - 9
  (if m ≤ 2 then y + 1 else y, m, d)

/-- English weekday names indexed Sunday-first (models `strftime("%A")`). -/
def weekdayNames : List String :=
  ["Sunday", "Monday", "Tuesday", "Wednesday", "Thursday", "Friday", "Saturday"]

/-- English month names indexed from January = 1 (models `strftime("%B")`). -/
def monthNames : List String :=
  ["January", "February", "March", "April", "May", "June", "July",
   "August", "September", "October", "November", "December"]

/-- Model of `date.strftime("%A, %B %d")` on a days-since-epoch date. -/
def formatDateLong (days : Nat) : String :=
  let (_, m, d) := civilFromDays days
  let weekday := (weekdayNames.get? ((days + 4) % 7)).getD ""
  let month := (monthNames.get? (m - 1)).getD ""
  weekday ++ ", " ++ month ++ " " ++ pad2 d

/-- Model of `time.strftime("%I:%M %p").lstrip("0")` on minutes since
midnight (12-hour clock, leading zeros of the hour stripped). -/
def formatTime12 (minutes : Nat) : String :=
  let hour24 := minutes / 60 % 24
  let minute := minutes % 60
  let h12 := if hour24 % 12 == 0 then 12 else hour24 % 12
  let ampm := if hour24 < 12 then "AM" else "PM"
  pyDropLeadingZeros (pad2 h12 ++ ":" ++ pad2 minute ++ " " ++ ampm)

/-- A row of `AvailableSlotResponse` (`app/schemas/appointment.py`). -/
structure AvailableSlotResponse where
  slot_id : Nat
  technician_id : Nat
  technician_name : String
  date : Nat
  start_minutes : Nat
  end_minutes : Nat
deriving DecidableEq

/-- `SchedulingService._generate_confirmation_number`: `"SHS-"` plus eight
random uppercase alphanumerics; the random part is an oracle input. -/
def generate_confirmation_number (randomPart : String) : String :=
  "SHS" ++ "-" ++ randomPart

/-- The join/filter of `SchedulingService.get_available_slots`: a slot row
qualifies when it is available, unblocked, inside the date range, and its
technician is active, serves the zip and has the appliance specialty. -/
def slotMatches (db : DB) (zip_code appliance_type : String)
    (start_date end_date : Nat) (time_preference : Option String)
    (slot : TimeSlot) : Bool :=
  match db.technicians.find? (fun t => t.id == slot.technician_id) with
  | none => false
  | some tech =>
      slot.is_available && !slot.is_blocked &&
      decide (start_date ≤ slot.date) && decide (slot.date ≤ end_date) &&
      tech.service_zips.contains zip_code &&
      tech.specialties.contains appliance_type &&
      tech.is_active &&
      (match time_preference with
       | some "morning" => decide (slot.start_minutes < 720)
       | some "afternoon" => decide (720 ≤ slot.start_minutes)
       | _ => true)

/-- `SchedulingService.get_available_slots` with default date range (the
voice agent never passes dates): `start = today + 1`, `end = start + 14`;
matching rows ordered by `(date, start_time)`. -/
def get_available_slots (db : DB) (today : Nat)
    (zip_code appliance_type : String) (time_preference : Option String) :
    List AvailableSlotResponse :=
  let start_date := today + 1
  let end_date := start_date + 14
  let rows := db.slots.filter
    (slotMatches db zip_code appliance_type start_date end_date time_preference)
  let rows := rows.mergeSort
    (fun a b => a.date < b.date || (a.date == b.date && a.start_minutes ≤ b.start_minutes))
  rows.filterMap (fun slot =>
    (db.technicians.find? (fun t => t.id == slot.technician_id)).map (fun tech =>
      { slot_id := slot.id
        technician_id := tech.id
        technician_name := tech.full_name
        date := slot.date
        start_minutes := slot.start_minutes
        end_minutes := slot.end_minutes }))

/-- `SchedulingService.book_appointment`: look the slot up; refuse when
missing, unavailable or blocked; otherwise mark it unavailable, insert the
appointment and commit.  `slot_id` is the raw decoded argument; `conf` is
the oracle confirmation-number draw. -/
def SchedulingService.book_appointment (db : DB) (customer_id : Option Nat)
    (time_slot_id : JsonVal) (appliance_type issue_description : String)
    (symptoms : Option String) (call_sid : Option String) (conf : String) :
    DB × Option Appointment × Option String :=
  match db.slots.find? (fun s => JsonVal.num s.id == time_slot_id) with
  | none => (db, none, some "Time slot not found")
  | some slot =>
      if !slot.is_available then
        (db, none, some "This time slot is no longer available")
      else if slot.is_blocked then
        (db, none, some "This time slot is blocked")
      else
        let appointment : Appointment :=
          { id := db.next_appointment_id
            technician_id := slot.technician_id
            customer_id := customer_id
            time_slot_id := slot.id
            confirmation_number := generate_confirmation_number conf
            status := AppointmentStatus.scheduled
            appliance_type := appliance_type
            issue_description := issue_description
            symptoms := symptoms
            customer_notes := none
            call_sid := call_sid }
        let db' : DB :=
          { db with
            slots := db.slots.map
              (fun s => if s.id == slot.id then { s with is_available := false } else s)
            appointments := db.appointments ++ [appointment]
            next_appointment_id := db.next_appointment_id + 1 }
        (db', some appointment, none)

/-- The dict returned by `SchedulingService.format_appointment_details`. -/
structure AppointmentDetails where
  confirmation_number : String
  date : String
  time_window : String
  technician_name : String
  appliance_type : String
  issue_description : String
deriving DecidableEq

/-- `SchedulingService.format_appointment_details`: resolve the slot and
technician relationships and render the human-readable fields; `none` models
the (unreachable on booking success) exception path of dangling relations. -/
def format_appointment_details (db : DB) (a : Appointment) :
    Option AppointmentDetails := do
  let slot ← db.slots.find? (fun s => s.id == a.time_slot_id)
  let tech ← db.technicians.find? (fun t => t.id == a.technician_id)
  pure
    { confirmation_number := a.confirmation_number
      date := formatDateLong slot.date
      time_window := formatTime12 slot.start_minutes ++ " to " ++ formatTime12 slot.end_minutes
      technician_name := tech.full_name
      appliance_type := a.appliance_type
      issue_description := a.issue_description }

/-! ## Image service (`app/services/image_service.py`) -/

/-- Default of `settings.upload_url_expiry_hours` (`app/config.py`). -/
def upload_url_expiry_hours : Nat := 24

/-- `ImageService.create_upload_request`: insert an upload-request row with
an oracle token and an expiry `now + expiry_hours` (seconds). -/
def ImageService.create_upload_request (db : DB) (now : Nat)
    (customer_id : Option Nat) (email : String)
    (appliance_type issue_description call_sid : Option String)
    (token : String) : DB × ImageUploadRequest :=
  let req : ImageUploadRequest :=
    { customer_id := customer_id
      upload_token := token
      email_sent_to := email
      email_sent_at := now
      expires_at := now + upload_url_expiry_hours * 3600
      appliance_type := appliance_type
      issue_description := issue_description
      call_sid := call_sid }
  ({ db with upload_requests := db.upload_requests ++ [req] }, req)

/-! ## Tool dispatcher (`app/voice/agent.py`, class `VoiceAgent`)

`execute_tool` wraps every branch in `try/except`; any exception raised by a
branch (`KeyError` on a missing required argument, `AttributeError`/`TypeError`
on a non-string where `str` methods are applied) is caught and rendered as
`genericToolError`.  The embedding returns that string on exactly those
paths, so the dispatcher is a total function — the counterpart of "never
raises to the bridge". -/

/-- The catch-all result of `execute_tool`'s `except` handler. -/
def genericToolError : String :=
  "I encountered an issue while processing that. Let me try another approach."

/-- The names of the five defined tools (`VoiceAgent.get_tools`). -/
def toolNames : List String :=
  [ "get_troubleshooting_steps", "check_technician_availability"
  , "book_appointment", "request_image_upload", "update_customer_info" ]

/-- `VoiceAgent._get_troubleshooting`: render the first five steps as a
bulleted list. -/
def VoiceAgent.get_troubleshooting (appliance_type symptom : String) : String :=
  let steps := get_troubleshooting_steps appliance_type symptom
  if steps.isEmpty then
    "I don\x27t have specific troubleshooting steps for that issue, but general steps like checking power and resetting the appliance may help."
  else
    let formatted_steps := String.intercalate "\n" ((steps.take 5).map (fun step => "- " ++ step))
    "Troubleshooting steps for " ++ appliance_type ++ " with \x27" ++ symptom ++ "\x27:\n" ++ formatted_steps

/-- `VoiceAgent._check_availability`: normalize the appliance tag, query the
slots, record the zip into the session when offers exist, and render up to
five offers. -/
def VoiceAgent.check_availability (db : DB) (session : ConversationState)
    (today : Nat) (zip_code appliance_type preferred_time : String) :
    String × DB × ConversationState :=
  let normalized_type := (normalize_appliance_type appliance_type).getD (pyLower appliance_type)
  let time_preference : Option String :=
    if preferred_time == "any" then none else some preferred_time
  let slots := get_available_slots db today zip_code normalized_type time_preference
  if slots.isEmpty then
    ("I\x27m sorry, I couldn\x27t find any available technicians for " ++ appliance_type ++
       " service in the " ++ zip_code ++
       " area. Would you like to try a different date range or check nearby zip codes?",
     db, session)
  else
    let session := { session with scheduling := { session.scheduling with customer_zip_code := some zip_code } }
    let slot_descriptions := (slots.take 5).map (fun slot =>
      "Slot " ++ toString slot.slot_id ++ ": " ++ formatDateLong slot.date ++
        " from " ++ formatTime12 slot.start_minutes ++ " to " ++ formatTime12 slot.end_minutes ++
        " with " ++ slot.technician_name)
    ("Available appointments in " ++ zip_code ++ ":\n" ++ String.intercalate "\n" slot_descriptions,
     db, session)

/-- `VoiceAgent._book_appointment`: when the session carries a customer id,
write the parsed name and zip through to the customer record first; then
attempt the booking; on failure return the recoverable text and leave the
session untouched; on success record the outcome into the session and render
the confirmation. -/
def VoiceAgent.book_appointment (db : DB) (session : ConversationState)
    (slot_id : JsonVal) (customer_name : String) (customer_zip_code : Option String)
    (appliance_type issue_description : String) (conf : String) :
    String × DB × ConversationState :=
  let db :=
    match session.customer_id with
    | none => db
    | some customer_id =>
        let parts := pySplitOnce customer_name
        let first_name := (parts.get? 0).getD customer_name
        let last_name := if parts.length > 1 then (parts.get? 1).getD "" else ""
        (CustomerService.update_customer db customer_id
          { first_name := some first_name
            last_name := some last_name
            zip_code := customer_zip_code }).1
  let normalized_type := (normalize_appliance_type appliance_type).getD (pyLower appliance_type)
  match SchedulingService.book_appointment db session.customer_id slot_id
      normalized_type issue_description session.diagnostic.primary_symptom
      (some session.call_sid) conf with
  | (db, _, some e) =>
      ("I wasn\x27t able to book that appointment: " ++ e ++ ". Let me check other available times.",
       db, session)
  | (db, some appointment, none) =>
      let session := { session with
        appointment_id := some appointment.id
        appointment_confirmation := some appointment.confirmation_number }
      match format_appointment_details db appointment with
      | some details =>
          ("Appointment booked successfully!\n" ++
             "Confirmation Number: " ++ details.confirmation_number ++ "\n" ++
             "Date: " ++ details.date ++ "\n" ++
             "Time: " ++ details.time_window ++ "\n" ++
             "Technician: " ++ details.technician_name ++ "\n" ++
             "Service: " ++ details.appliance_type ++ " - " ++ details.issue_description,
           db, session)
      | none => (genericToolError, db, session)
  | (db, none, none) => (genericToolError, db, session)

/-- `VoiceAgent._request_image`: issue the upload token, record the request
and the email into the session, render the instructions (the optional parts
use Python truthiness, so empty strings are skipped). -/
def VoiceAgent.request_image (db : DB) (session : ConversationState) (now : Nat)
    (email : String) (appliance_type specific_area : Option String)
    (token : String) : String × DB × ConversationState :=
  let (db, upload_request) := ImageService.create_upload_request db now
    session.customer_id email appliance_type session.diagnostic.primary_symptom
    (some session.call_sid) token
  let session := { session with
    image_upload_requested := true
    image_upload_token := some upload_request.upload_token
    scheduling := { session.scheduling with customer_email := some email } }
  let instructions := "I\x27ve sent an email to " ++ email ++ " with a link to upload a photo"
  let instructions :=
    if (specific_area.getD "") != "" then instructions ++ " of the " ++ specific_area.getD ""
    else if (appliance_type.getD "") != "" then instructions ++ " of your " ++ appliance_type.getD ""
    else instructions
  (instructions ++ ". The link will be valid for 24 hours.", db, session)

/-- `VoiceAgent._update_customer`: parse the provided fields into kwargs,
mirror them into the session, and write through to the customer record —
all guarded by the presence of a session customer id. -/
def VoiceAgent.update_customer (db : DB) (session : ConversationState)
    (updates : ArgMap) : String × DB × ConversationState :=
  match session.customer_id with
  | none => ("Customer information updated.", db, session)
  | some customer_id =>
      match updates.find "name" with
      | some v =>
          match v.getStr with
          | none => (genericToolError, db, session)
          | some nameStr => update_customer_fields db session customer_id updates (some nameStr)
      | none => update_customer_fields db session customer_id updates none
where
  /-- Continuation after the `"name"` extraction (which can raise). -/
  update_customer_fields (db : DB) (session : ConversationState)
      (customer_id : Nat) (updates : ArgMap) (nameStr : Option String) :
      String × DB × ConversationState :=
    let parts := (nameStr.map pySplitOnce).getD []
    let u : CustomerUpdate :=
      { first_name := nameStr.map (fun n => ((parts.get? 0).getD n))
        last_name := if parts.length > 1 then parts.get? 1 else none
        email := (updates.find "email").map JsonVal.render
        zip_code := (updates.find "zip_code").map JsonVal.render
        address_line1 := (updates.find "address").map JsonVal.render }
    let session := { session with scheduling :=
      { session.scheduling with
        customer_name :=
          match nameStr with | some n => some n | none => session.scheduling.customer_name
        customer_email :=
          match (updates.find "email").map JsonVal.render with
          | some e => some e | none => session.scheduling.customer_email
        customer_zip_code :=
          match (updates.find "zip_code").map JsonVal.render with
          | some z => some z | none => session.scheduling.customer_zip_code
        customer_address :=
          match (updates.find "address").map JsonVal.render with
          | some a => some a | none => session.scheduling.customer_address } }
    let db := (CustomerService.update_customer db customer_id u).1
    ("Customer information updated.", db, session)

/-- `VoiceAgent.execute_tool`: dispatch on the tool name; unknown names
yield `"Unknown tool: <name>"`; missing required arguments and string-method
misuse raise inside the `try` and come back as `genericToolError`. -/
def VoiceAgent.execute_tool (db : DB) (session : ConversationState)
    (today now : Nat) (conf token : String)
    (tool_name : String) (arguments : ArgMap) : String × DB × ConversationState :=
  if tool_name == "get_troubleshooting_steps" then
    match arguments.find "appliance_type", arguments.find "symptom" with
    | some a, some s =>
        match s.getStr with
        | some symptom => (VoiceAgent.get_troubleshooting a.render symptom, db, session)
        | none => (genericToolError, db, session)
    | _, _ => (genericToolError, db, session)
  else if tool_name == "check_technician_availability" then
    match arguments.find "zip_code", arguments.find "appliance_type" with
    | some z, some a =>
        match a.getStr with
        | some appliance =>
            let preferred_time :=
              match arguments.find "preferred_time" with
              | some v => v.render
              | none => "any"
            VoiceAgent.check_availability db session today z.render appliance preferred_time
        | none => (genericToolError, db, session)
    | _, _ => (genericToolError, db, session)
  else if tool_name == "book_appointment" then
    match arguments.find "slot_id", arguments.find "customer_name",
          arguments.find "appliance_type", arguments.find "issue_description" with
    | some slot_id, some cn, some a, some d =>
        match cn.getStr, a.getStr with
        | some customer_name, some appliance =>
            let customer_zip_code :=
              match arguments.find "customer_zip_code" with
              | some v => some v.render
              | none => session.scheduling.customer_zip_code
            VoiceAgent.book_appointment db session slot_id customer_name
              customer_zip_code appliance d.render conf
        | _, _ => (genericToolError, db, session)
    | _, _, _, _ => (genericToolError, db, session)
  else if tool_name == "request_image_upload" then
    match arguments.find "email" with
    | some e =>
        let appliance_type :=
          match arguments.find "appliance_type" with
          | some v => some v.render
          | none => session.diagnostic.appliance_type
        let specific_area := (arguments.find "specific_area").map JsonVal.render
        VoiceAgent.request_image db session now e.render appliance_type specific_area token
    | none => (genericToolError, db, session)
  else if tool_name == "update_customer_info" then
    VoiceAgent.update_customer db session arguments
  else
    ("Unknown tool: " ++ tool_name, db, session)

/-! ## Carrier signaling handler (`app/api/voice.py`) -/

/-- The WebSocket URL interpolated into the TwiML `Stream` element:
`wss://{host}/voice/media-stream/{call_sid}` (`voice.py`, `ws_url`). -/
def media_stream_url (host call_sid : String) : String :=
  "wss://" ++ host ++ "/voice/media-stream/" ++ call_sid

/-- Structured view of the TwiML document the handler returns: one
`Connect` child holding one `Stream` element with a `url` attribute and
`Parameter` children in document order. -/
structure StreamTwiml where
  url : String
  parameters : List (String × String)
deriving DecidableEq

/-- Result of the incoming-call webhook: updated customer table, updated
session store, and the signaling document. -/
structure IncomingCallResult where
  db : DB
  manager : SessionManager
  twiml : StreamTwiml
deriving DecidableEq

/-- `handle_incoming_call`: resolve-or-create the customer by caller phone,
create the session, and answer with the `Connect`/`Stream` TwiML carrying
the `call_sid` and `customer_phone` parameters. -/
def handle_incoming_call (db : DB) (m : SessionManager) (now : Nat)
    (host call_sid caller : String) : IncomingCallResult :=
  let (db, customer) := CustomerService.get_or_create_customer db caller
  let (m, _) := m.create_session now call_sid caller (some customer.id)
  { db := db
    manager := m
    twiml :=
      { url := media_stream_url host call_sid
        parameters := [("call_sid", call_sid), ("customer_phone", caller)] } }

/-- The terminal call statuses of `handle_call_status`. -/
def terminalStatuses : List String :=
  ["completed", "busy", "failed", "no-answer", "canceled"]

/-- `handle_call_status`: end the session on a terminal status. -/
def handle_call_status (m : SessionManager) (call_sid call_status : String) :
    SessionManager :=
  if terminalStatuses.contains call_status then (m.end_session call_sid).1 else m

/-! ## Realtime bridge, downlink pump (`app/voice/realtime_handler.py`) -/

/-- Outbound messages the bridge sends on the model WebSocket. -/
inductive ModelMsg where
  | itemCreateFunctionOutput (call_id : String) (output : String)
  | responseCreate
  | inputAudioAppend (audio : String)
deriving DecidableEq

/-- Outbound frames the bridge sends on the carrier WebSocket. -/
inductive TwilioMsg where
  | media (streamSid : String) (payload : String)
deriving DecidableEq

/-- Inbound events of the downlink pump (`_receive_from_openai`).  For a
completed function-call event, `arguments` is the result of
`json.loads(event.get("arguments", "{}"))`: `none` models a decode failure
(the raised exception is caught and only logged). -/
inductive OpenAIEvent where
  | audioDelta (delta : String)
  | audioTranscriptDone (transcript : String)
  | inputTranscriptionCompleted (transcript : String)
  | functionCallArgsDone (call_id : String) (name : String) (arguments : Option ArgMap)
  | errorEvent
  | sessionCreated
  | sessionUpdated
deriving DecidableEq

/-- The key-fact string built for a user transcript at
`realtime_handler.py:232`: `f"User said: {transcript[:200]}"`. -/
def userFact (transcript : String) : String :=
  "User said: " ++ pyTake transcript 200

/-- Per-call state the downlink pump reads and writes. -/
structure BridgeState where
  session : ConversationState
  stream_sid : Option String := none
deriving DecidableEq

/-- `RealtimeHandler._handle_tool_call`: decode the arguments, run the
dispatcher, then send the `function_call_output` item followed by
`response.create`.  A decode failure raises inside the `try` and nothing is
sent. -/
def handle_tool_call (db : DB) (session : ConversationState)
    (today now : Nat) (conf token : String)
    (call_id name : String) (arguments : Option ArgMap) :
    List ModelMsg × DB × ConversationState :=
  match arguments with
  | none => ([], db, session)
  | some args =>
      let (result, db, session) :=
        VoiceAgent.execute_tool db session today now conf token name args
      ([ModelMsg.itemCreateFunctionOutput call_id result, ModelMsg.responseCreate],
       db, session)

/-- One iteration of the downlink pump (`_receive_from_openai`): dispatch on
the event type, returning the new bridge state, the database, the frames
sent to the carrier and the messages sent to the model. -/
def openaiStep (db : DB) (bs : BridgeState) (today now : Nat)
    (conf token : String) (ev : OpenAIEvent) :
    BridgeState × DB × List TwilioMsg × List ModelMsg :=
  match ev with
  | .audioDelta delta =>
      match bs.stream_sid with
      | some sid =>
          if delta != "" then (bs, db, [TwilioMsg.media sid delta], [])
          else (bs, db, [], [])
      | none => (bs, db, [], [])
  | .audioTranscriptDone _ => (bs, db, [], [])
  | .inputTranscriptionCompleted transcript =>
      let session := (bs.session.add_fact (userFact transcript)).update_interaction now
      ({ bs with session := session }, db, [], [])
  | .functionCallArgsDone call_id name arguments =>
      let (msgs, db, session) :=
        handle_tool_call db bs.session today now conf token call_id name arguments
      ({ bs with session := session }, db, [], msgs)
  | .errorEvent => (bs, db, [], [])
  | .sessionCreated => (bs, db, [], [])
  | .sessionUpdated => (bs, db, [], [])

/-! ## Session mutation model

Every in-place mutation of a `ConversationState` appearing in the source
(the downlink pump, the tool dispatcher, the session store and the debug
context endpoint) as one step, for stating cross-moment invariants. -/

/-- One source-level mutation of a live `ConversationState`. -/
inductive SessionMutation where
  | addFact (fact : String)
  | updateInteraction (now : Nat)
  | setPhase (p : ConversationPhase)
  | setApplianceType (v : String)
  | extendSymptoms (l : List String)
  | setPrimarySymptom (v : String)
  | setSchedulingZip (v : String)
  | setCustomerName (v : String)
  | setCustomerEmail (v : String)
  | setCustomerAddress (v : String)
  | setOutcome (appointment_id : Nat) (confirmation : String)
  | setImageRequest (token : String)
deriving DecidableEq

/-- Apply one mutation. -/
def applyMutation (s : ConversationState) : SessionMutation → ConversationState
  | .addFact fact => s.add_fact fact
  | .updateInteraction now => s.update_interaction now
  | .setPhase p => { s with phase := p }
  | .setApplianceType v =>
      { s with diagnostic := { s.diagnostic with appliance_type := some v } }
  | .extendSymptoms l =>
      { s with diagnostic :=
        { s.diagnostic with additional_symptoms := s.diagnostic.additional_symptoms ++ l } }
  | .setPrimarySymptom v =>
      { s with diagnostic := { s.diagnostic with primary_symptom := some v } }
  | .setSchedulingZip v =>
      { s with scheduling := { s.scheduling with customer_zip_code := some v } }
  | .setCustomerName v =>
      { s with scheduling := { s.scheduling with customer_name := some v } }
  | .setCustomerEmail v =>
      { s with scheduling := { s.scheduling with customer_email := some v } }
  | .setCustomerAddress v =>
      { s with scheduling := { s.scheduling with customer_address := some v } }
  | .setOutcome appointment_id confirmation =>
      { s with appointment_id := some appointment_id
               appointment_confirmation := some confirmation }
  | .setImageRequest token =>
      { s with image_upload_requested := true, image_upload_token := some token }

/-- Apply a sequence of mutations left to right. -/
def applyMutations (s : ConversationState) (ops : List SessionMutation) : ConversationState :=
  ops.foldl applyMutation s

/-- The clock supplied to each `update_interaction` never reads below the
session's current `last_interaction` (monotone wall clock). -/
def WellClocked : ConversationState → List SessionMutation → Prop
  | _, [] => True
  | s, op :: rest =>
      (match op with
       | SessionMutation.updateInteraction now => s.last_interaction ≤ now
       | _ => True) ∧ WellClocked (applyMutation s op) rest

/-! ## Concrete fixtures for counterexamples and witnesses -/

/-- A live state for call `CA1` (scenario 1 of the spec). -/
def demoState : ConversationState :=
  { call_sid := "CA1", customer_phone := "+15551234567"
    started_at := 0, last_interaction := 0 }

/-- A store already holding a live state for `CA1`. -/
def demoStore : SessionManager :=
  { sessions := [("CA1", demoState)] }

/-- A session carrying a backend customer id. -/
def demoSession : ConversationState :=
  { call_sid := "CA1", customer_phone := "+15551234567"
    started_at := 0, last_interaction := 0, customer_id := some 1 }

/-- Slot 42: exists but `is_available = false` (scenario 4 of the spec). -/
def demoSlot42 : TimeSlot :=
  { id := 42, technician_id := 7, date := 20740
    start_minutes := 540, end_minutes := 720, is_available := false }

/-- A database holding customer 1, technician 7 and the unavailable slot 42. -/
def demoDB : DB :=
  { customers := [{ id := 1, phone := "+15551234567" }]
    technicians := [{ id := 7, full_name := "Pat Lee"
                      service_zips := ["90210"], specialties := ["washer"] }]
    slots := [demoSlot42]
    next_customer_id := 2, next_appointment_id := 1 }

/-- Slot 42 variant: available but blocked. -/
def demoSlot42Blocked : TimeSlot :=
  { id := 42, technician_id := 7, date := 20740
    start_minutes := 540, end_minutes := 720, is_blocked := true }

/-- `demoDB` with the blocked slot variant. -/
def demoDBBlocked : DB :=
  { demoDB with slots := [demoSlot42Blocked] }

/-- A bridge state over a session with no recorded facts. -/
def demoBridgeState : BridgeState :=
  { session := demoSession, stream_sid := some "S1" }

/-! ## Theorems -/

/-- After removing a key, looking it up yields nothing. -/
theorem lookupKey_removeKey (k : String) (l : List (String × ConversationState)) :
    lookupKey k (removeKey k l) = none := by
  induction l with
  | nil => rfl
  | cons p rest ih =>
      obtain ⟨k', v⟩ := p
      by_cases h : k' = k
      · simpa [removeKey, h] using ih
      · simpa [removeKey, lookupKey, h] using ih

/-- Removing a key twice is the same as removing it once. -/
theorem removeKey_removeKey (k : String) (l : List (String × ConversationState)) :
    removeKey k (removeKey k l) = removeKey k l := by
  induction l with
  | nil => rfl
  | cons p rest ih =>
      obtain ⟨k', v⟩ := p
      by_cases h : k' = k
      · simpa [removeKey, h] using ih
      · simpa [removeKey, h] using ih

/-- C8: for every call id `x` and store contents, `end(x); end(x)` leaves the
store in the same post-state as a single `end(x)`; the first call removes
and returns exactly the prior live state (`get` of `x`), and the second
call is a no-op returning nothing. -/
theorem end_session_idempotent (m : SessionManager) (x : String) :
    ((m.end_session x).1.end_session x).1 = (m.end_session x).1 ∧
    ((m.end_session x).1.end_session x).2 = none ∧
    (m.end_session x).2 = m.get_session x := by
  refine ⟨?_, ?_, rfl⟩
  · simp [SessionManager.end_session, removeKey_removeKey]
  · simp [SessionManager.end_session, lookupKey_removeKey]

/-- C9: the appliance normalization lexicon maps `"Washing Machine"` and
`"washer"` to `"washer"`, `"fridge"` to `"refrigerator"`, `"AC"` to
`"hvac"`, and rejects `"unknown"`. -/
theorem normalize_appliance_values :
    normalize_appliance_type "Washing Machine" = some "washer" ∧
    normalize_appliance_type "washer" = some "washer" ∧
    normalize_appliance_type "fridge" = some "refrigerator" ∧
    normalize_appliance_type "AC" = some "hvac" ∧
    normalize_appliance_type "unknown" = none := by
  refine ⟨?_, ?_, ?_, ?_, ?_⟩ <;> rfl

/-- C1 counterexample: with a live state already stored for `"CA1"`, the
spec-side `create` must fail with `DuplicateSession`, but the source
`create_session` succeeds anyway: it returns a fresh greeting-phase state
and overwrites the live entry. -/
theorem create_session_no_duplicate_check :
    create_session_spec demoStore 5 "CA1" "+15551234567" none =
      CreateResult.duplicateSession ∧
    (demoStore.create_session 5 "CA1" "+15551234567" none).1.get_session "CA1" =
      some (demoStore.create_session 5 "CA1" "+15551234567" none).2 ∧
    (demoStore.create_session 5 "CA1" "+15551234567" none).2.phase =
      ConversationPhase.greeting := by
  refine ⟨rfl, rfl, rfl⟩

/-- C1 amended: `create(call_id, caller_identity, customer_ref)` always
succeeds — even when a live session exists for `call_id`, which it silently
overwrites — and initializes phase=greeting, turn_count=0 and both
timestamps to the current time, storing the new state under `call_id`. -/
theorem create_session_always_succeeds (m : SessionManager) (now : Nat)
    (call_sid customer_phone : String) (customer_id : Option Nat) :
    (m.create_session now call_sid customer_phone customer_id).2.phase =
      ConversationPhase.greeting ∧
    (m.create_session now call_sid customer_phone customer_id).2.turn_count = 0 ∧
    (m.create_session now call_sid customer_phone customer_id).2.started_at = now ∧
    (m.create_session now call_sid customer_phone customer_id).2.last_interaction = now ∧
    (m.create_session now call_sid customer_phone customer_id).1.get_session call_sid =
      some (m.create_session now call_sid customer_phone customer_id).2 := by
  refine ⟨rfl, rfl, rfl, rfl, ?_⟩
  simp [SessionManager.create_session, SessionManager.get_session, lookupKey]

/-- C2 counterexample: for the webhook with host `host`, call id `CA1` and
caller `+15551234567`, the `Stream` url is
`wss://host/voice/media-stream/CA1`, not `wss://host/media/CA1` as the
claim states; the two `Parameter` children match the claim. -/
theorem stream_url_path_counterexample :
    (handle_incoming_call {} {} 0 "host" "CA1" "+15551234567").twiml.url ≠
      "wss://host/media/CA1" ∧
    (handle_incoming_call {} {} 0 "host" "CA1" "+15551234567").twiml.url =
      "wss://host/voice/media-stream/CA1" ∧
    (handle_incoming_call {} {} 0 "host" "CA1" "+15551234567").twiml.parameters =
      [("call_sid", "CA1"), ("customer_phone", "+15551234567")] := by
  refine ⟨by decide, rfl, rfl⟩

/-- C2 amended: for every inbound signaling webhook with call identifier `C`
and caller phone `F`, the XML response contains a connect child with a
stream element whose url attribute equals
`wss://{public_host}/voice/media-stream/{C}`, together with the two
parameter children `call_sid=C` and `customer_phone=F`. -/
theorem incoming_call_twiml (db : DB) (m : SessionManager) (now : Nat)
    (host call_sid caller : String) :
    (handle_incoming_call db m now host call_sid caller).twiml =
      { url := "wss://" ++ host ++ "/voice/media-stream/" ++ call_sid
        parameters := [("call_sid", call_sid), ("customer_phone", caller)] } := by
  rfl

/-- C3: for every completed function-call event with tool call identifier
`k` whose arguments decode, the downlink pump sends on the model WebSocket
exactly the two messages `conversation.item.create` carrying a
`function_call_output` item with `call_id = k` and the dispatcher result,
followed by `response.create`, in that order. -/
theorem tool_call_two_messages (db : DB) (bs : BridgeState) (today now : Nat)
    (conf token : String) (k tool_name : String) (args : ArgMap) :
    (openaiStep db bs today now conf token
        (OpenAIEvent.functionCallArgsDone k tool_name (some args))).2.2.2 =
      [ModelMsg.itemCreateFunctionOutput k
         (VoiceAgent.execute_tool db bs.session today now conf token tool_name args).1,
       ModelMsg.responseCreate] := by
  rfl

/-- C5: the entry the downlink pump appends to `key_facts` for a user
transcript begins with `"User said: "` and is at most 212 characters long;
`add_fact` keeps `key_facts` duplicate-free and only ever extends it on the
right, preserving insertion order. -/
theorem user_transcript_fact (db : DB) (bs : BridgeState) (today now : Nat)
    (conf token : String) (t : String)
    (hnodup : bs.session.key_facts.Nodup) :
    (∃ r, userFact t = "User said: " ++ r) ∧
    (userFact t).length ≤ 212 ∧
    ((openaiStep db bs today now conf token
        (OpenAIEvent.inputTranscriptionCompleted t)).1.session.key_facts).Nodup ∧
    (∃ suffix, (openaiStep db bs today now conf token
        (OpenAIEvent.inputTranscriptionCompleted t)).1.session.key_facts =
      bs.session.key_facts ++ suffix) := by
  refine ⟨⟨pyTake t 200, rfl⟩, ?_, ?_, ?_⟩
  · show ("User said: " ++ pyTake t 200).length ≤ 212
    rw [String.length_append]
    have h1 : ("User said: " : String).length = 11 := rfl
    have h2 : (pyTake t 200).length = (t.toList.take 200).length := rfl
    have h3 : (t.toList.take 200).length ≤ 200 := List.length_take_le _ _
    omega
  · show ((bs.session.add_fact (userFact t)).update_interaction now).key_facts.Nodup
    have hk : ((bs.session.add_fact (userFact t)).update_interaction now).key_facts =
        (bs.session.add_fact (userFact t)).key_facts := rfl
    rw [hk]
    unfold ConversationState.add_fact
    by_cases h : userFact t ∈ bs.session.key_facts
    · simpa [h] using hnodup
    · simp [h, List.nodup_append, hnodup]
  · by_cases h : userFact t ∈ bs.session.key_facts
    · refine ⟨[], ?_⟩
      show ((bs.session.add_fact (userFact t)).update_interaction now).key_facts =
        bs.session.key_facts ++ []
      simp [ConversationState.add_fact, ConversationState.update_interaction, h]
    · refine ⟨[userFact t], ?_⟩
      show ((bs.session.add_fact (userFact t)).update_interaction now).key_facts =
        bs.session.key_facts ++ [userFact t]
      simp [ConversationState.add_fact, ConversationState.update_interaction, h]

/-- C5 witness: the invariants instantiated on transcript `"hello"` over a
fresh session. -/
theorem user_transcript_fact_witness :
    demoBridgeState.session.key_facts.Nodup ∧
    ((∃ r, userFact "hello" = "User said: " ++ r) ∧
     (userFact "hello").length ≤ 212 ∧
     ((openaiStep demoDB demoBridgeState 0 7 "C" "T"
         (OpenAIEvent.inputTranscriptionCompleted "hello")).1.session.key_facts).Nodup ∧
     (∃ suffix, (openaiStep demoDB demoBridgeState 0 7 "C" "T"
         (OpenAIEvent.inputTranscriptionCompleted "hello")).1.session.key_facts =
       demoBridgeState.session.key_facts ++ suffix)) :=
  ⟨by decide, user_transcript_fact demoDB demoBridgeState 0 7 "C" "T" "hello" (by decide)⟩

/-- C6: for every tool name outside the five defined tools and any argument
map and session state, the dispatcher returns the non-empty string
`"Unknown tool: <name>"`; being a total function of the embedding, it never
raises to the bridge. -/
theorem unknown_tool_result (db : DB) (session : ConversationState)
    (today now : Nat) (conf token : String) (tool_name : String) (args : ArgMap)
    (h : tool_name ∉ toolNames) :
    (VoiceAgent.execute_tool db session today now conf token tool_name args).1 =
      "Unknown tool: " ++ tool_name ∧
    (VoiceAgent.execute_tool db session today now conf token tool_name args).1 ≠ "" := by
  simp only [toolNames, List.mem_cons, List.not_mem_nil, or_false, not_or] at h
  obtain ⟨h1, h2, h3, h4, h5⟩ := h
  have hres : (VoiceAgent.execute_tool db session today now conf token tool_name args).1 =
      "Unknown tool: " ++ tool_name := by
    simp [VoiceAgent.execute_tool, h1, h2, h3, h4, h5]
  refine ⟨hres, ?_⟩
  rw [hres]
  intro heq
  have hlen := congrArg String.length heq
  rw [String.length_append] at hlen
  have e1 : ("Unknown tool: " : String).length = 14 := rfl
  have e2 : ("" : String).length = 0 := rfl
  rw [e1, e2] at hlen
  omega

/-- C6 witness: the unknown tool name `"frobnicate"`. -/
theorem unknown_tool_result_witness :
    "frobnicate" ∉ toolNames ∧
    ((VoiceAgent.execute_tool demoDB demoSession 0 0 "C" "T" "frobnicate" []).1 =
       "Unknown tool: " ++ "frobnicate" ∧
     (VoiceAgent.execute_tool demoDB demoSession 0 0 "C" "T" "frobnicate" []).1 ≠ "") :=
  ⟨by decide, unknown_tool_result demoDB demoSession 0 0 "C" "T" "frobnicate" [] (by decide)⟩

/-- Updating a customer record touches only the customers table. -/
theorem update_customer_slots (db : DB) (cid : Nat) (u : CustomerUpdate) :
    (CustomerService.update_customer db cid u).1.slots = db.slots := by
  unfold CustomerService.update_customer
  cases h : db.customers.find? (fun c => c.id == cid) <;> simp [h]

/-- C4: a dispatcher `book_appointment` invocation whose slot exists but is
unavailable returns a non-empty text beginning with
`"I wasn't able to book"`, and the session's outcome fields
(`appointment_id`, `appointment_confirmation`) remain unset afterwards. -/
theorem book_unavailable_slot (db : DB) (session : ConversationState)
    (slot_id : JsonVal) (customer_name : String) (customer_zip_code : Option String)
    (appliance_type issue_description conf : String) (slot : TimeSlot)
    (hfind : db.slots.find? (fun s => JsonVal.num s.id == slot_id) = some slot)
    (hunav : slot.is_available = false)
    (hid : session.appointment_id = none)
    (hconf : session.appointment_confirmation = none) :
    (∃ r, (VoiceAgent.book_appointment db session slot_id customer_name
        customer_zip_code appliance_type issue_description conf).1 =
      "I wasn\x27t able to book" ++ r) ∧
    (VoiceAgent.book_appointment db session slot_id customer_name
        customer_zip_code appliance_type issue_description conf).1 ≠ "" ∧
    (VoiceAgent.book_appointment db session slot_id customer_name
        customer_zip_code appliance_type issue_description conf).2.2.appointment_id = none ∧
    (VoiceAgent.book_appointment db session slot_id customer_name
        customer_zip_code appliance_type issue_description conf).2.2.appointment_confirmation = none := by
  unfold VoiceAgent.book_appointment SchedulingService.book_appointment
  cases hc : session.customer_id with
  | none =>
      simp only [hc]
      rw [hfind]
      simp only [hunav, Bool.not_false, reduceIte]
      exact ⟨⟨" that appointment: This time slot is no longer available. Let me check other available times.",
        by decide⟩, by decide, hid, hconf⟩
  | some cid =>
      simp only [hc]
      rw [update_customer_slots, hfind]
      simp only [hunav, Bool.not_false, reduceIte]
      exact ⟨⟨" that appointment: This time slot is no longer available. Let me check other available times.",
        by decide⟩, by decide, hid, hconf⟩

/-- C4 witness: booking unavailable slot 42 for Jane Doe (scenario 4). -/
theorem book_unavailable_slot_witness :
    demoDB.slots.find? (fun s => JsonVal.num s.id == JsonVal.num 42) = some demoSlot42 ∧
    demoSlot42.is_available = false ∧
    demoSession.appointment_id = none ∧
    demoSession.appointment_confirmation = none ∧
    ((∃ r, (VoiceAgent.book_appointment demoDB demoSession (JsonVal.num 42) "Jane Doe"
        none "washer" "will not start" "AB12CD34").1 = "I wasn\x27t able to book" ++ r) ∧
     (VoiceAgent.book_appointment demoDB demoSession (JsonVal.num 42) "Jane Doe"
        none "washer" "will not start" "AB12CD34").1 ≠ "" ∧
     (VoiceAgent.book_appointment demoDB demoSession (JsonVal.num 42) "Jane Doe"
        none "washer" "will not start" "AB12CD34").2.2.appointment_id = none ∧
     (VoiceAgent.book_appointment demoDB demoSession (JsonVal.num 42) "Jane Doe"
        none "washer" "will not start" "AB12CD34").2.2.appointment_confirmation = none) :=
  ⟨by decide, by decide, by decide, by decide,
   book_unavailable_slot demoDB demoSession (JsonVal.num 42) "Jane Doe" none
     "washer" "will not start" "AB12CD34" demoSlot42
     (by decide) (by decide) (by decide) (by decide)⟩

/-- A single mutation never decreases the counters, provided an
`update_interaction` reads a clock at or after `last_interaction`. -/
theorem applyMutation_counters_le (s : ConversationState) (op : SessionMutation)
    (h : match op with
         | SessionMutation.updateInteraction now => s.last_interaction ≤ now
         | _ => True) :
    s.turn_count ≤ (applyMutation s op).turn_count ∧
    s.last_interaction ≤ (applyMutation s op).last_interaction := by
  cases op with
  | addFact f =>
      constructor
      · show s.turn_count ≤ (s.add_fact f).turn_count
        unfold ConversationState.add_fact
        split_ifs <;> exact Nat.le_refl _
      · show s.last_interaction ≤ (s.add_fact f).last_interaction
        unfold ConversationState.add_fact
        split_ifs <;> exact Nat.le_refl _
  | updateInteraction now => exact ⟨Nat.le_succ _, h⟩
  | setPhase p => exact ⟨Nat.le_refl _, Nat.le_refl _⟩
  | setApplianceType v => exact ⟨Nat.le_refl _, Nat.le_refl _⟩
  | extendSymptoms l => exact ⟨Nat.le_refl _, Nat.le_refl _⟩
  | setPrimarySymptom v => exact ⟨Nat.le_refl _, Nat.le_refl _⟩
  | setSchedulingZip v => exact ⟨Nat.le_refl _, Nat.le_refl _⟩
  | setCustomerName v => exact ⟨Nat.le_refl _, Nat.le_refl _⟩
  | setCustomerEmail v => exact ⟨Nat.le_refl _, Nat.le_refl _⟩
  | setCustomerAddress v => exact ⟨Nat.le_refl _, Nat.le_refl _⟩
  | setOutcome i c => exact ⟨Nat.le_refl _, Nat.le_refl _⟩
  | setImageRequest t => exact ⟨Nat.le_refl _, Nat.le_refl _⟩

/-- C7: under a monotone wall clock, `turn_count` and `last_interaction`
never decrease across any sequence of the source's session mutations; in
particular `update(state)` increments `turn_count` by exactly one and sets
`last_interaction` to the clock reading before storing the state. -/
theorem session_counters_monotone (s : ConversationState)
    (ops : List SessionMutation) (m : SessionManager) (now : Nat)
    (st : ConversationState) (h : WellClocked s ops) :
    (s.turn_count ≤ (applyMutations s ops).turn_count ∧
     s.last_interaction ≤ (applyMutations s ops).last_interaction) ∧
    ((m.update_session now st).2.turn_count = st.turn_count + 1 ∧
     (m.update_session now st).2.last_interaction = now ∧
     (m.update_session now st).1.get_session st.call_sid =
       some (m.update_session now st).2) := by
  constructor
  · induction ops generalizing s with
    | nil => exact ⟨Nat.le_refl _, Nat.le_refl _⟩
    | cons op rest ih =>
        obtain ⟨h1, h2⟩ := h
        have hstep := applyMutation_counters_le s op h1
        have hrest := ih (applyMutation s op) h2
        exact ⟨Nat.le_trans hstep.1 hrest.1, Nat.le_trans hstep.2 hrest.2⟩
  · refine ⟨rfl, rfl, ?_⟩
    simp [SessionManager.update_session, SessionManager.get_session, lookupKey,
      ConversationState.update_interaction]

/-- C7 witness: a concrete well-clocked trace over the `CA1` state. -/
theorem session_counters_monotone_witness :
    WellClocked demoState
      [SessionMutation.updateInteraction 5, SessionMutation.addFact "x",
       SessionMutation.updateInteraction 9] ∧
    ((demoState.turn_count ≤
        (applyMutations demoState
          [SessionMutation.updateInteraction 5, SessionMutation.addFact "x",
           SessionMutation.updateInteraction 9]).turn_count ∧
      demoState.last_interaction ≤
        (applyMutations demoState
          [SessionMutation.updateInteraction 5, SessionMutation.addFact "x",
           SessionMutation.updateInteraction 9]).last_interaction) ∧
     ((demoStore.update_session 7 demoState).2.turn_count = demoState.turn_count + 1 ∧
      (demoStore.update_session 7 demoState).2.last_interaction = 7 ∧
      (demoStore.update_session 7 demoState).1.get_session demoState.call_sid =
        some (demoStore.update_session 7 demoState).2)) :=
  ⟨⟨by decide, trivial, by decide, trivial⟩,
   session_counters_monotone demoState
     [SessionMutation.updateInteraction 5, SessionMutation.addFact "x",
      SessionMutation.updateInteraction 9] demoStore 7 demoState
     ⟨by decide, trivial, by decide, trivial⟩⟩

/-- C10: when the session carries a customer id, the dispatcher's
`book_appointment` performs the customer-record write (first name, last
name and zip parsed from the arguments) before the booking attempt, so on
every failed booking (slot missing, unavailable or blocked) the resulting
database is exactly the customer-updated one — the write is not rolled
back — while the session, and in particular its appointment fields, is
returned unchanged. -/
theorem customer_update_survives_failed_booking (db : DB)
    (session : ConversationState) (customer_id : Nat) (slot_id : JsonVal)
    (customer_name : String) (customer_zip_code : Option String)
    (appliance_type issue_description conf : String)
    (hcid : session.customer_id = some customer_id)
    (hfail : ((db.slots.find? (fun s => JsonVal.num s.id == slot_id)).all
        (fun slot => !slot.is_available || slot.is_blocked)) = true) :
    (VoiceAgent.book_appointment db session slot_id customer_name
        customer_zip_code appliance_type issue_description conf).2.1 =
      (CustomerService.update_customer db customer_id
        { first_name := some (((pySplitOnce customer_name).get? 0).getD customer_name)
          last_name := some (if (pySplitOnce customer_name).length > 1
            then ((pySplitOnce customer_name).get? 1).getD "" else "")
          zip_code := customer_zip_code }).1 ∧
    (VoiceAgent.book_appointment db session slot_id customer_name
        customer_zip_code appliance_type issue_description conf).2.2 = session := by
  unfold VoiceAgent.book_appointment SchedulingService.book_appointment
  simp only [hcid]
  rw [update_customer_slots]
  cases hs : db.slots.find? (fun s => JsonVal.num s.id == slot_id) with
  | none => exact ⟨rfl, rfl⟩
  | some slot =>
      rw [hs] at hfail
      simp only [Option.all] at hfail
      cases ha : slot.is_available with
      | false => simp [ha]
      | true =>
          rw [ha] at hfail
          simp only [Bool.not_true, Bool.false_or] at hfail
          simp [ha, hfail]

/-- C10 witness: booking the blocked slot 42 for Jane Doe with a session
carrying customer id 1. -/
theorem customer_update_survives_failed_booking_witness :
    demoSession.customer_id = some 1 ∧
    ((demoDBBlocked.slots.find? (fun s => JsonVal.num s.id == JsonVal.num 42)).all
        (fun slot => !slot.is_available || slot.is_blocked)) = true ∧
    ((VoiceAgent.book_appointment demoDBBlocked demoSession (JsonVal.num 42)
        "Jane Doe" (some "90210") "washer" "will not start" "AB12CD34").2.1 =
      (CustomerService.update_customer demoDBBlocked 1
        { first_name := some (((pySplitOnce "Jane Doe").get? 0).getD "Jane Doe")
          last_name := some (if (pySplitOnce "Jane Doe").length > 1
            then ((pySplitOnce "Jane Doe").get? 1).getD "" else "")
          zip_code := some "90210" }).1 ∧
     (VoiceAgent.book_appointment demoDBBlocked demoSession (JsonVal.num 42)
        "Jane Doe" (some "90210") "washer" "will not start" "AB12CD34").2.2 = demoSession) :=
  ⟨by decide, by decide,
   customer_update_survives_failed_booking demoDBBlocked demoSession 1
     (JsonVal.num 42) "Jane Doe" (some "90210") "washer" "will not start"
     "AB12CD34" (by decide) (by decide)⟩
